import Mathlib

/-!
Verification of the theme-transition screen (expo-magic-curtain).

The application is a single screen with an animated light/dark theme-switch
transition.  The embedding below models, faithfully to the TypeScript source:

* the colour scheme (`"light" | "dark" | null`) and the toggle performed by
  `changeTheme` (`Appearance.setColorScheme(colorScheme === "light" ? "dark" : "light")`);
* the component state: `progress` shared value, the two snapshot references
  `firstSnapshot` / `secondSnapshot`, the `colorSchemeSv` shared value, the
  queued appearance-change listener and the in-flight `withTiming` animation;
* the three events that mutate this state: a press of the theme switcher
  (`changeTheme`), the appearance-change listener body, and the `withTiming`
  completion callback;
* the render function (the `transitioning` branch, the `firstSnapshot`
  overlay branch and the plain branch);
* the `glsl` tagged-template helper, the `frag` shader compiler wrapper,
  and the `directionalwrap` fragment shader (over the real numbers);
* the four independent per-card "liked" boolean atoms of `Cards.tsx`.
-/

/-- Colour scheme values: `useColorScheme` returns `"light"`, `"dark"` or `null`;
the latter is modelled by `Option Scheme` with `none`. -/
inductive Scheme
  | light
  | dark
  deriving DecidableEq, Repr

/-- The scheme installed by `changeTheme`:
`colorScheme === "light" ? "dark" : "light"`. -/
def nextScheme (c : Option Scheme) : Scheme :=
  if c = some .light then .dark else .light

/-- A rasterized snapshot produced by `makeImageFromView(ref)`: its content is
the screen as rendered under the colour scheme current at capture time. -/
structure Snapshot where
  content : Option Scheme
  deriving DecidableEq, Repr

/-- An in-flight `withTiming` animation: `withTiming(target, { duration })`. -/
structure Anim where
  target : ℚ
  duration : ℕ
  deriving DecidableEq, Repr

/-- The state of the `App` component: `progress` and `colorSchemeSv` shared
values, the two snapshot pieces of React state, the appearance colour scheme,
whether an appearance-change listener callback is queued, and whether a
`withTiming` animation is running. -/
structure AppState where
  scheme : Option Scheme
  progress : ℚ
  firstSnapshot : Option Snapshot
  secondSnapshot : Option Snapshot
  colorSchemeSv : Option Scheme
  pendingListener : Bool
  anim : Option Anim
  deriving DecidableEq, Repr

/-- `makeImageFromView(ref)`: captures the ref'd view as rendered under the
current colour scheme. -/
def capture (s : AppState) : Snapshot := ⟨s.scheme⟩

/-- `const transitioning = firstSnapshot !== null && secondSnapshot !== null`. -/
def transitioning (s : AppState) : Bool :=
  s.firstSnapshot.isSome && s.secondSnapshot.isSome

/-- First half of `changeTheme`: `progress.value = 0;
const snapshot1 = await makeImageFromView(ref); setFirstSnapshot(snapshot1)`.
The capture happens before the colour-scheme change. -/
def changeThemeCapture (s : AppState) : AppState :=
  { s with progress := 0, firstSnapshot := some (capture s) }

/-- Second half of `changeTheme`:
`Appearance.setColorScheme(colorScheme === "light" ? "dark" : "light")`,
which queues the appearance-change listener. -/
def changeThemeSetScheme (s : AppState) : AppState :=
  { s with scheme := some (nextScheme s.scheme), pendingListener := true }

/-- Body of the appearance-change listener (after the `setTimeout`):
`const snapshot2 = await makeImageFromView(ref); setSecondSnapshot(snapshot2);
colorSchemeSv.value = colorScheme;
progress.value = withTiming(1, { duration: 1700 }, callback)`. -/
def listenerFireStep (s : AppState) : AppState :=
  { s with secondSnapshot := some (capture s),
           colorSchemeSv := s.scheme,
           anim := some ⟨1, 1700⟩,
           pendingListener := false }

/-- The `withTiming` completion: progress reaches the animation target and the
callback runs `runOnJS(setFirstSnapshot)(null); runOnJS(setSecondSnapshot)(null)`. -/
def animCompleteStep (s : AppState) : AppState :=
  { s with progress := (s.anim.map Anim.target).getD s.progress,
           firstSnapshot := none,
           secondSnapshot := none,
           anim := none }

/-- The three events that mutate the component state. -/
inductive Ev
  | pressToggle
  | listenerFire
  | animComplete
  deriving DecidableEq, Repr

/-- Transition function of the screen: a theme-switcher press runs the two
halves of `changeTheme` in order; the other events run the listener body and
the completion callback. -/
def step : Ev → AppState → AppState
  | .pressToggle, s => changeThemeSetScheme (changeThemeCapture s)
  | .listenerFire, s => listenerFireStep s
  | .animComplete, s => animCompleteStep s

/-- Event guards: the theme switcher is only rendered (hence pressable) in the
non-transitioning branch; the listener body runs only after a scheme change
queued it; the completion callback only fires for a running animation. -/
def enabled : Ev → AppState → Bool
  | .pressToggle, s => !transitioning s
  | .listenerFire, s => s.pendingListener
  | .animComplete, s => s.anim.isSome

/-- Initial component state for a given system colour scheme: `progress`
starts at 0 (`useSharedValue(0)`), both snapshots are `null`
(`useState<SkImage | null>(null)`), no listener queued, no animation. -/
def initState (c : Option Scheme) : AppState :=
  ⟨c, 0, none, none, c, false, none⟩

/-- States reachable from an initial state by enabled events. -/
inductive Reachable : AppState → Prop
  | init (c : Option Scheme) : Reachable (initState c)
  | step {s : AppState} (e : Ev) : Reachable s → enabled e s = true →
      Reachable (step e s)

/-- The themed view subtree (the ref'd `View` styled by the current scheme). -/
structure ThemedView where
  scheme : Option Scheme
  deriving DecidableEq, Repr

/-- The three shapes the `App` render function can return: the transition
canvas fed with both snapshots, the first-snapshot full-height canvas laid
over the re-themed view, or the plain themed view. -/
inductive Render
  | transitionCanvas (first second : Snapshot) (progress : ℚ)
  | snapshotOverlay (first : Snapshot) (view : ThemedView)
  | plain (view : ThemedView)
  deriving DecidableEq, Repr

/-- The `App` render function: if `transitioning` the shader canvas with the
two snapshots; otherwise the themed view, preceded by a full-height
`firstSnapshot` canvas when `firstSnapshot` is non-null
(`{firstSnapshot && <Canvas>...</Canvas>}`). -/
def render (s : AppState) : Render :=
  match s.firstSnapshot, s.secondSnapshot with
  | some f, some g => .transitionCanvas f g s.progress
  | some f, none => .snapshotOverlay f ⟨s.scheme⟩
  | none, _ => .plain ⟨s.scheme⟩

/-- The two phases of the screen, as decided by the `transitioning` boolean. -/
inductive Phase
  | idle
  | transitioning
  deriving DecidableEq, Repr

/-- The phase of a state: `transitioning` exactly when the render function
takes the transition branch. -/
def phase (s : AppState) : Phase :=
  if transitioning s then .transitioning else .idle

/-- Number of live snapshot bitmaps in a state. -/
def snapshotCount (s : AppState) : ℕ :=
  (if s.firstSnapshot.isSome then 1 else 0) +
    (if s.secondSnapshot.isSome then 1 else 0)

/-- Structural invariant of reachable states: a second snapshot implies a
first one; a queued listener implies the second snapshot is still null and
the first is set; a running animation implies the second snapshot is set. -/
def appInv (s : AppState) : Prop :=
  (s.secondSnapshot.isSome = true → s.firstSnapshot.isSome = true) ∧
  (s.pendingListener = true → s.secondSnapshot = none) ∧
  (s.pendingListener = true → s.firstSnapshot.isSome = true) ∧
  (s.anim.isSome = true → s.secondSnapshot.isSome = true)

lemma reachable_appInv {s : AppState} (h : Reachable s) : appInv s := by
  induction h with
  | init c => simp [appInv, initState]
  | @step s1 e hr hen ih =>
    obtain ⟨ih1, ih2, ih3, ih4⟩ := ih
    cases e with
    | pressToggle =>
      have hsecond : s1.secondSnapshot = none := by
        simp only [enabled, transitioning, Bool.not_eq_true', Bool.and_eq_false_iff] at hen
        rcases hen with hfirst | hsecond
        · cases hs : s1.secondSnapshot.isSome with
          | false => exact Option.not_isSome_iff_eq_none.mp (by simp [hs])
          | true => exact absurd (ih1 hs) (by simp [hfirst])
        · exact Option.not_isSome_iff_eq_none.mp (by simp [hsecond])
      have hanim : s1.anim = none := by
        cases ha : s1.anim with
        | none => rfl
        | some a => exact absurd (ih4 (by simp [ha])) (by simp [hsecond])
      refine ⟨?_, ?_, ?_, ?_⟩ <;>
        simp [step, changeThemeSetScheme, changeThemeCapture, hsecond, hanim]
    | listenerFire =>
      have hpending : s1.pendingListener = true := hen
      refine ⟨?_, ?_, ?_, ?_⟩ <;>
        simp [step, listenerFireStep, ih3 hpending]
    | animComplete =>
      have hanim : s1.anim.isSome = true := hen
      have hpending : s1.pendingListener = false := by
        cases hp : s1.pendingListener with
        | false => rfl
        | true => exact absurd (ih4 hanim) (by simp [ih2 hp])
      refine ⟨?_, ?_, ?_, ?_⟩ <;>
        simp [step, animCompleteStep, hpending]

/-- A template-literal interpolation value: `type Value = string | number`.
JS numbers are modelled by integers (the code only ever interpolates
strings). -/
inductive Value
  | str (s : String)
  | num (n : Int)
  deriving DecidableEq, Repr

/-- String conversion as performed by `Array.prototype.join`. -/
def Value.toStr : Value → String
  | .str s => s
  | .num n => toString n

/-- An element of the array built by
`source.flatMap((s, i) => [s, values[i]])`: indexing past the end of
`values` yields `undefined`. -/
inductive JSVal
  | undef
  | val (v : Value)
  deriving DecidableEq, Repr

/-- JS truthiness as tested by `filter(Boolean)`: `undefined`, `""` and `0`
are falsy. -/
def JSVal.truthy : JSVal → Bool
  | .undef => false
  | .val (.str s) => !s.isEmpty
  | .val (.num n) => n != 0

/-- String conversion as performed by `join` (`undefined` joins as `""`). -/
def JSVal.toStr : JSVal → String
  | .undef => ""
  | .val v => v.toStr

/-- The array `source.flatMap((s, i) => [s, values[i]])`: each template
segment followed by the value at the same index, `undefined` past the end of
`values` (in particular after the last segment). -/
def interleaveJS : List String → List Value → List JSVal
  | [], _ => []
  | s :: rest, [] => .val (.str s) :: .undef :: interleaveJS rest []
  | s :: rest, v :: vs => .val (.str s) :: .val v :: interleaveJS rest vs

/-- The `glsl` tagged template:
`source.flatMap((s, i) => [s, values[i]]).filter(Boolean).join("")`. -/
def glsl (source : List String) (values : List Value) : String :=
  String.join (((interleaveJS source values).filter JSVal.truthy).map JSVal.toStr)

/-- A compiled Skia runtime effect, identified by its accepted source. -/
structure RuntimeEffect where
  compiledSource : String
  deriving DecidableEq, Repr

/-- The `frag` tagged template, parametric in the external compiler
`Skia.RuntimeEffect.Make` (a partial function returning `null` on failure):
`const rt = Skia.RuntimeEffect.Make(glsl(source, ...values));
if (rt === null) throw new Error("Couln't Compile Shader"); return rt`. -/
def frag (make : String → Option RuntimeEffect)
    (source : List String) (values : List Value) : Except String RuntimeEffect :=
  match make (glsl source values) with
  | none => .error "Couln't Compile Shader"
  | some rt => .ok rt

/-- Description of `glsl` in the claim's words: the concatenation of the
template's string segments interleaved with the interpolated values, where an
empty segment, a value equal to the number 0 and a value equal to the empty
string are omitted. -/
def glslSpecInterleave : List String → List Value → String
  | [], _ => ""
  | s :: rest, [] => (if s.isEmpty then "" else s) ++ glslSpecInterleave rest []
  | s :: rest, v :: vs =>
      (if s.isEmpty then "" else s) ++
        (if v = .num 0 ∨ v = .str "" then "" else v.toStr) ++
        glslSpecInterleave rest vs

lemma string_join_cons (a : String) (l : List String) :
    String.join (a :: l) = a ++ String.join l := by
  simp only [String.join_eq, List.map_cons, List.flatten_cons]
  rfl

lemma glsl_cons (x : JSVal) (l : List JSVal) :
    String.join (((x :: l).filter JSVal.truthy).map JSVal.toStr) =
      (if x.truthy then x.toStr else "") ++
        String.join ((l.filter JSVal.truthy).map JSVal.toStr) := by
  by_cases h : x.truthy = true <;>
    simp [List.filter_cons, h, string_join_cons]

/-- The per-card "liked" atoms of `Cards.tsx`:
`bikeAtom`, `milkAtom`, `teddybearAtom`, `ballAtom`, each `atom(false)`. -/
structure CardsState where
  bike : Bool
  milk : Bool
  teddybear : Bool
  ball : Bool
  deriving DecidableEq, Repr

/-- Initial card state: all four atoms are `atom(false)`. -/
def initCards : CardsState := ⟨false, false, false, false⟩

/-- The four cards of the grid. -/
inductive CardId
  | bike
  | milk
  | teddybear
  | ball
  deriving DecidableEq, Repr

/-- Read a card's "liked" atom. -/
def likedState (c : CardId) (cs : CardsState) : Bool :=
  match c with
  | .bike => cs.bike
  | .milk => cs.milk
  | .teddybear => cs.teddybear
  | .ball => cs.ball

/-- Write a card's "liked" atom. -/
def setLiked (c : CardId) (b : Bool) (cs : CardsState) : CardsState :=
  match c with
  | .bike => { cs with bike := b }
  | .milk => { cs with milk := b }
  | .teddybear => { cs with teddybear := b }
  | .ball => { cs with ball := b }

/-- The whole screen state: the `App` component state, the card atoms, and
the `themeSwitchAtom` read by `Card` to gate the entering animation. -/
structure ScreenState where
  app : AppState
  cards : CardsState
  themeSwitching : Bool
  deriving DecidableEq, Repr

/-- A press of a card's like affordance: `onPress={() => setIsLiked(!isLiked)}`. -/
def pressLike (c : CardId) (s : ScreenState) : ScreenState :=
  { s with cards := setLiked c (!likedState c s.cards) s.cards }

/-- A GLSL `vec2` / `float2`, over the idealized reals. -/
structure Vec2 where
  x : ℝ
  y : ℝ

/-- A GLSL `half4` / `vec4` colour. -/
structure Color where
  r : ℝ
  g : ℝ
  b : ℝ
  a : ℝ

/-- GLSL `mix(u, v, t) = u * (1 - t) + v * t`, componentwise. -/
def mixC (u v : Color) (t : ℝ) : Color :=
  ⟨u.r * (1 - t) + v.r * t, u.g * (1 - t) + v.g * t,
   u.b * (1 - t) + v.b * t, u.a * (1 - t) + v.a * t⟩

/-- GLSL `clamp(x, lo, hi) = min(max(x, lo), hi)`. -/
noncomputable def clampG (x lo hi : ℝ) : ℝ := min (max x lo) hi

/-- GLSL `smoothstep(e0, e1, x)`: Hermite interpolation of the clamped ramp. -/
noncomputable def smoothstep (e0 e1 x : ℝ) : ℝ :=
  let t := clampG ((x - e0) / (e1 - e0)) 0 1
  t * t * (3 - 2 * t)

/-- GLSL `length(v)`. -/
noncomputable def lengthV (v : Vec2) : ℝ := Real.sqrt (v.x ^ 2 + v.y ^ 2)

/-- GLSL `normalize(v) = v / length(v)`. -/
noncomputable def normalizeV (v : Vec2) : Vec2 :=
  ⟨v.x / lengthV v, v.y / lengthV v⟩

/-- `const vec2 direction = vec2(-1.0, 1.0)` of `directionalwrap`. -/
def direction : Vec2 := ⟨-1, 1⟩

/-- `const float smoothness = 0.5` of `directionalwrap`. -/
def smoothness : ℝ := 0.5

/-- `const vec2 center = vec2(0.5, 0.5)` of `directionalwrap`. -/
def center : Vec2 := ⟨0.5, 0.5⟩

/-- `vec2 v = normalize(direction); v /= abs(v.x) + abs(v.y)`. -/
noncomputable def dwV : Vec2 :=
  let v := normalizeV direction
  ⟨v.x / (|v.x| + |v.y|), v.y / (|v.x| + |v.y|)⟩

/-- The wipe mask of `directionalwrap`:
`float d = v.x * center.x + v.y * center.y;
float m = 1.0 - smoothstep(-smoothness, 0.0,
  v.x * uv.x + v.y * uv.y - (d - 0.5 + progress * (1.0 + smoothness)))`. -/
noncomputable def dwMask (progress : ℝ) (uv : Vec2) : ℝ :=
  let v := dwV
  let d := v.x * center.x + v.y * center.y
  1 - smoothstep (-smoothness) 0
      (v.x * uv.x + v.y * uv.y - (d - 0.5 + progress * (1.0 + smoothness)))

/-- The `transition` function of `directionalwrap`:
`return mix(getFromColor((uv - 0.5) * (1.0 - m) + 0.5),
            getToColor((uv - 0.5) * m + 0.5), m)`. -/
noncomputable def directionalwrapT (getFrom getTo : Vec2 → Color)
    (progress : ℝ) (uv : Vec2) : Color :=
  let m := dwMask progress uv
  mixC (getFrom ⟨(uv.x - 0.5) * (1 - m) + 0.5, (uv.y - 0.5) * (1 - m) + 0.5⟩)
    (getTo ⟨(uv.x - 0.5) * m + 0.5, (uv.y - 0.5) * m + 0.5⟩) m

/-- `half4 getFromColor(float2 uv) { return image1.eval(uv * resolution); }`. -/
def getFromColor (image1 : Vec2 → Color) (resolution uv : Vec2) : Color :=
  image1 ⟨uv.x * resolution.x, uv.y * resolution.y⟩

/-- `half4 getToColor(float2 uv) { return image2.eval(uv * resolution); }`. -/
def getToColor (image2 : Vec2 → Color) (resolution uv : Vec2) : Color :=
  image2 ⟨uv.x * resolution.x, uv.y * resolution.y⟩

/-- `half4 main(vec2 xy) { vec2 uv = xy / resolution; return transition(uv); }`
for the shader built by `transition(directionalwrap)`. -/
noncomputable def shaderMain (image1 image2 : Vec2 → Color) (progress : ℝ)
    (resolution xy : Vec2) : Color :=
  directionalwrapT (getFromColor image1 resolution) (getToColor image2 resolution)
    progress ⟨xy.x / resolution.x, xy.y / resolution.y⟩

lemma mixC_zero (u v : Color) : mixC u v 0 = u := by
  cases u
  simp [mixC]

lemma mixC_one (u v : Color) : mixC u v 1 = v := by
  cases v
  simp [mixC]

lemma smoothstep_one_of_ge (e0 e1 x : ℝ) (h01 : e0 < e1) (hx : e1 ≤ x) :
    smoothstep e0 e1 x = 1 := by
  have hpos : (0 : ℝ) < e1 - e0 := by linarith
  have h1 : (1 : ℝ) ≤ (x - e0) / (e1 - e0) := by
    rw [le_div_iff₀ hpos]
    linarith
  have hc : clampG ((x - e0) / (e1 - e0)) 0 1 = 1 := by
    unfold clampG
    rw [max_eq_left (by linarith), min_eq_right h1]
  simp only [smoothstep, hc]
  norm_num

lemma smoothstep_zero_of_le (e0 e1 x : ℝ) (h01 : e0 < e1) (hx : x ≤ e0) :
    smoothstep e0 e1 x = 0 := by
  have h1 : (x - e0) / (e1 - e0) ≤ 0 :=
    div_nonpos_of_nonpos_of_nonneg (by linarith) (by linarith)
  have hc : clampG ((x - e0) / (e1 - e0)) 0 1 = 0 := by
    unfold clampG
    rw [max_eq_right h1, min_eq_left (by norm_num)]
  simp only [smoothstep, hc]
  norm_num

lemma dwV_eq : dwV = ⟨-(1 / 2), 1 / 2⟩ := by
  have h2 : (0 : ℝ) < Real.sqrt 2 := Real.sqrt_pos.mpr (by norm_num)
  have hne : Real.sqrt 2 ≠ 0 := ne_of_gt h2
  have hlen : lengthV ⟨-1, 1⟩ = Real.sqrt 2 := by
    norm_num [lengthV]
  have habs1 : |(1 : ℝ) / Real.sqrt 2| = 1 / Real.sqrt 2 :=
    abs_of_pos (by positivity)
  have habs2 : |(-1 : ℝ) / Real.sqrt 2| = 1 / Real.sqrt 2 := by
    rw [show ((-1 : ℝ) / Real.sqrt 2) = -(1 / Real.sqrt 2) by ring, abs_neg, habs1]
  simp only [dwV, normalizeV, direction, hlen, habs1, habs2, Vec2.mk.injEq]
  constructor
  · rw [div_eq_iff (by positivity)]
    field_simp
  · rw [div_eq_iff (by positivity)]
    field_simp

lemma dwMask_eq (progress : ℝ) (uv : Vec2) :
    dwMask progress uv =
      1 - smoothstep (-(1 / 2)) 0
        (-(1 / 2) * uv.x + 1 / 2 * uv.y - (-(1 / 2) + progress * (3 / 2))) := by
  simp only [dwMask, dwV_eq, center, smoothness]
  norm_num

lemma vec2_eta (v : Vec2) : (⟨v.x, v.y⟩ : Vec2) = v := rfl

lemma dwMask_zero (uv : Vec2) (hx1 : uv.x ≤ 1) (hy0 : 0 ≤ uv.y) :
    dwMask 0 uv = 0 := by
  rw [dwMask_eq,
    smoothstep_one_of_ge _ _ _ (by norm_num) (by linarith)]
  norm_num

lemma dwMask_one (uv : Vec2) (hx0 : 0 ≤ uv.x) (hy1 : uv.y ≤ 1) :
    dwMask 1 uv = 1 := by
  rw [dwMask_eq,
    smoothstep_zero_of_le _ _ _ (by norm_num) (by linarith)]
  norm_num

lemma directionalwrapT_zero (getFrom getTo : Vec2 → Color) (uv : Vec2)
    (hx1 : uv.x ≤ 1) (hy0 : 0 ≤ uv.y) :
    directionalwrapT getFrom getTo 0 uv = getFrom uv := by
  simp only [directionalwrapT, dwMask_zero uv hx1 hy0, mixC_zero]
  norm_num [vec2_eta]

lemma directionalwrapT_one (getFrom getTo : Vec2 → Color) (uv : Vec2)
    (hx0 : 0 ≤ uv.x) (hy1 : uv.y ≤ 1) :
    directionalwrapT getFrom getTo 1 uv = getTo uv := by
  simp only [directionalwrapT, dwMask_one uv hx0 hy1, mixC_one]
  norm_num [vec2_eta]

/-- C2: `frag` fails exactly when shader-source compilation
(`Skia.RuntimeEffect.Make`) returns null, producing no compiled effect and no
fallback or retry; for every input whose compilation succeeds, `frag` returns
the compiled runtime effect. -/
theorem c2_frag_failure (make : String → Option RuntimeEffect)
    (source : List String) (values : List Value) :
    ((∃ msg, frag make source values = .error msg) ↔
        make (glsl source values) = none) ∧
    (∀ rt, make (glsl source values) = some rt →
        frag make source values = .ok rt) := by
  constructor
  · cases h : make (glsl source values) <;> simp [frag, h]
  · intro rt h
    simp [frag, h]

/-- Witness for C2: a compiler that accepts everything makes `frag` return
the compiled effect for the assembled source. -/
theorem c2_frag_failure_witness :
    frag (fun c => some ⟨c⟩) ["half4 main", ""] [] =
      .ok ⟨glsl ["half4 main", ""] []⟩ :=
  (c2_frag_failure (fun c => some ⟨c⟩) ["half4 main", ""] []).2 _ rfl

lemma glsl_cons_nil (s : String) (rest : List String) :
    glsl (s :: rest) [] = (if s.isEmpty then "" else s) ++ glsl rest [] := by
  unfold glsl
  rw [show interleaveJS (s :: rest) [] =
        .val (.str s) :: .undef :: interleaveJS rest [] from rfl,
    glsl_cons, glsl_cons]
  by_cases hs : s.isEmpty <;>
    simp [JSVal.truthy, JSVal.toStr, Value.toStr, hs]

lemma glsl_cons_cons (s : String) (rest : List String) (v : Value) (vs : List Value) :
    glsl (s :: rest) (v :: vs) =
      (if s.isEmpty then "" else s) ++
        ((if v = .num 0 ∨ v = .str "" then "" else v.toStr) ++ glsl rest vs) := by
  unfold glsl
  rw [show interleaveJS (s :: rest) (v :: vs) =
        .val (.str s) :: .val v :: interleaveJS rest vs from rfl,
    glsl_cons, glsl_cons]
  have hv : (if (JSVal.val v).truthy = true then (JSVal.val v).toStr else "") =
      (if v = .num 0 ∨ v = .str "" then "" else v.toStr) := by
    cases v with
    | str sv =>
      by_cases hsv : sv = "" <;>
        simp [JSVal.truthy, JSVal.toStr, Value.toStr, hsv, String.isEmpty_iff]
    | num nv =>
      by_cases hnv : nv = 0 <;>
        simp [JSVal.truthy, JSVal.toStr, Value.toStr, hnv]
  rw [hv]
  by_cases hs : s.isEmpty <;>
    simp [JSVal.truthy, JSVal.toStr, Value.toStr, hs]

/-- C8: `glsl` returns the concatenation of the template's string segments
interleaved with the interpolated values, except that every falsy element is
dropped (`filter(Boolean)`): values equal to the number 0 or to the empty
string, and empty string segments, are omitted. -/
theorem c8_glsl_filter_boolean (source : List String) (values : List Value) :
    glsl source values = glslSpecInterleave source values := by
  induction source generalizing values with
  | nil => cases values <;> rfl
  | cons s rest ih =>
    cases values with
    | nil =>
      rw [glsl_cons_nil, ih]
      rfl
    | cons v vs =>
      rw [glsl_cons_cons, ih]
      simp [glslSpecInterleave, String.append_assoc]

/-- C9: `changeTheme` sets the colour scheme to dark iff the current scheme
is light; every other current scheme, including a null system scheme, is sent
to light. -/
theorem c9_change_theme_target :
    (∀ c, nextScheme c = .dark ↔ c = some .light) ∧
    (∀ c, c ≠ some .light → nextScheme c = .light) ∧
    (∀ s, (step .pressToggle s).scheme = some (nextScheme s.scheme)) := by
  refine ⟨?_, ?_, fun s => rfl⟩
  · intro c
    rcases c with _ | sch
    · simp [nextScheme]
    · cases sch <;> simp [nextScheme]
  · intro c hc
    rcases c with _ | sch
    · simp [nextScheme]
    · cases sch <;> simp_all [nextScheme]

/-- Witness for C9: from a dark scheme the toggle goes to light. -/
theorem c9_change_theme_target_witness : nextScheme (some .dark) = .light :=
  c9_change_theme_target.2.1 (some .dark) (by decide)

/-- C4: each transition drives the progress uniform from 0 to 1 over the
constant duration of 1700 ms: `changeTheme` resets progress to 0, the
appearance-change step starts a `withTiming` animation with target 1 and
duration 1700 while leaving progress at its reset value, and completion puts
progress at the animation target, hence at 1. -/
theorem c4_progress_timing :
    (∀ s, (changeThemeCapture s).progress = 0) ∧
    (∀ s, (step .pressToggle s).progress = 0) ∧
    (∀ s, (step .listenerFire s).anim = some ⟨1, 1700⟩) ∧
    (∀ s, (step .listenerFire s).progress = s.progress) ∧
    (∀ s a, s.anim = some a → (step .animComplete s).progress = a.target) ∧
    (∀ s, (step .animComplete (step .listenerFire s)).progress = 1) := by
  refine ⟨fun s => rfl, fun s => rfl, fun s => rfl, fun s => rfl, ?_, fun s => rfl⟩
  intro s a h
  simp [step, animCompleteStep, h]

/-- Witness for C4: completing the animation started by the listener puts
progress at its target. -/
theorem c4_progress_timing_witness :
    (step .animComplete (step .listenerFire (initState none))).progress =
      (⟨1, 1700⟩ : Anim).target :=
  c4_progress_timing.2.2.2.2.1 (step .listenerFire (initState none)) ⟨1, 1700⟩ rfl

/-- C7: the per-card liked booleans are independent: pressing a card's like
affordance flips exactly that card's atom, while every other card's atom, the
app component state and the theme-switch atom are unchanged. -/
theorem c7_likes_independent :
    (∀ s c, likedState c (pressLike c s).cards = !likedState c s.cards) ∧
    (∀ s c c', c' ≠ c →
        likedState c' (pressLike c s).cards = likedState c' s.cards) ∧
    (∀ s c, (pressLike c s).app = s.app ∧
        (pressLike c s).themeSwitching = s.themeSwitching) := by
  refine ⟨?_, ?_, fun s c => ⟨rfl, rfl⟩⟩
  · intro s c
    cases c <;> rfl
  · intro s c c' h
    cases c <;> cases c' <;> first | rfl | exact absurd rfl h

/-- Witness for C7: liking the bike card leaves the milk card's atom
unchanged. -/
theorem c7_likes_independent_witness :
    likedState .milk (pressLike .bike ⟨initState none, initCards, false⟩).cards =
      likedState .milk (⟨initState none, initCards, false⟩ : ScreenState).cards :=
  c7_likes_independent.2.1 ⟨initState none, initCards, false⟩ .bike .milk (by decide)

/-- C1: a theme toggle from a state with no live snapshots produces a first
non-null snapshot before the colour-scheme change (the capture half leaves
the scheme untouched, the second half changes it), the appearance-change
step then produces a second non-null snapshot of the changed scheme, and the
animation-completion callback clears both references, so both are null
again. -/
theorem c1_toggle_lifecycle (s : AppState)
    (h1 : s.firstSnapshot = none) (h2 : s.secondSnapshot = none) :
    ((changeThemeCapture s).firstSnapshot = some (capture s) ∧
      (changeThemeCapture s).scheme = s.scheme) ∧
    (step .pressToggle s = changeThemeSetScheme (changeThemeCapture s) ∧
      (step .pressToggle s).scheme ≠ s.scheme) ∧
    (enabled .listenerFire (step .pressToggle s) = true ∧
      (step .listenerFire (step .pressToggle s)).secondSnapshot =
        some ⟨(step .pressToggle s).scheme⟩) ∧
    (enabled .animComplete (step .listenerFire (step .pressToggle s)) = true ∧
      (step .animComplete (step .listenerFire (step .pressToggle s))).firstSnapshot =
        none ∧
      (step .animComplete (step .listenerFire (step .pressToggle s))).secondSnapshot =
        none) := by
  refine ⟨⟨rfl, rfl⟩, ⟨rfl, ?_⟩, ⟨rfl, rfl⟩, rfl, rfl, rfl⟩
  show some (nextScheme s.scheme) ≠ s.scheme
  cases hs : s.scheme with
  | none => decide
  | some sch => cases sch <;> decide

/-- Witness for C1: a full toggle run from a light idle state ends with the
first snapshot cleared. -/
theorem c1_toggle_lifecycle_witness :
    (step .animComplete (step .listenerFire (step .pressToggle
        (initState (some .light))))).firstSnapshot = none :=
  (c1_toggle_lifecycle (initState (some .light)) rfl rfl).2.2.2.2.1

/-- C3: every reachable state holds at most two snapshot bitmaps, and each
reference follows the create/consume/discard lifecycle: under any event, the
first snapshot only changes by becoming non-null at the theme change or null
at the completion callback, and the second only by becoming non-null at the
appearance-change step or null at the completion callback. -/
theorem c3_snapshot_invariant :
    (∀ s, Reachable s → snapshotCount s ≤ 2) ∧
    (∀ s e, (step e s).firstSnapshot ≠ s.firstSnapshot →
        ((step e s).firstSnapshot.isSome = true ∧ e = .pressToggle) ∨
        ((step e s).firstSnapshot = none ∧ e = .animComplete)) ∧
    (∀ s e, (step e s).secondSnapshot ≠ s.secondSnapshot →
        ((step e s).secondSnapshot.isSome = true ∧ e = .listenerFire) ∨
        ((step e s).secondSnapshot = none ∧ e = .animComplete)) := by
  refine ⟨?_, ?_, ?_⟩
  · intro s _
    unfold snapshotCount
    split <;> split <;> norm_num
  · intro s e h
    cases e with
    | pressToggle => exact Or.inl ⟨rfl, rfl⟩
    | listenerFire => exact absurd rfl h
    | animComplete => exact Or.inr ⟨rfl, rfl⟩
  · intro s e h
    cases e with
    | pressToggle => exact absurd rfl h
    | listenerFire => exact Or.inl ⟨rfl, rfl⟩
    | animComplete => exact Or.inr ⟨rfl, rfl⟩

/-- Witness for C3: the initial light state holds at most two snapshots, and
the toggle step changes the first snapshot only by setting it non-null. -/
theorem c3_snapshot_invariant_witness :
    snapshotCount (initState (some .light)) ≤ 2 ∧
    (((step .pressToggle (initState (some .light))).firstSnapshot.isSome = true ∧
        Ev.pressToggle = Ev.pressToggle) ∨
      ((step .pressToggle (initState (some .light))).firstSnapshot = none ∧
        Ev.pressToggle = Ev.animComplete)) :=
  ⟨c3_snapshot_invariant.1 _ (Reachable.init (some .light)),
    c3_snapshot_invariant.2.1 (initState (some .light)) .pressToggle (by decide)⟩

/-- C5: the screen's transition behaviour is a two-phase machine: it is in
the transitioning phase exactly when both snapshot references are non-null,
every state is idle or transitioning, an enabled event changes the phase only
along idle-to-transitioning (at the appearance-change step) or
transitioning-to-idle (at the animation completion), and the completion step
always returns the screen to idle. -/
theorem c5_phase_machine :
    (∀ s, phase s = .transitioning ↔
        (s.firstSnapshot.isSome = true ∧ s.secondSnapshot.isSome = true)) ∧
    (∀ s, phase s = .idle ∨ phase s = .transitioning) ∧
    (∀ s e, Reachable s → enabled e s = true → phase (step e s) ≠ phase s →
        (phase s = .idle ∧ phase (step e s) = .transitioning ∧ e = .listenerFire) ∨
        (phase s = .transitioning ∧ phase (step e s) = .idle ∧ e = .animComplete)) ∧
    (∀ s, phase (step .animComplete s) = .idle) := by
  refine ⟨?_, ?_, ?_, ?_⟩
  · intro s
    by_cases h1 : s.firstSnapshot.isSome <;> by_cases h2 : s.secondSnapshot.isSome <;>
      simp [phase, transitioning, h1, h2]
  · intro s
    by_cases h : transitioning s <;> simp [phase, h]
  · intro s e hr hen hph
    obtain ⟨i1, i2, i3, i4⟩ := reachable_appInv hr
    cases e with
    | pressToggle =>
      exfalso
      apply hph
      have hnt : transitioning s = false := by
        cases ht : transitioning s with
        | false => rfl
        | true => simp [enabled, ht] at hen
      have h2 : s.secondSnapshot = none := by
        cases h2s : s.secondSnapshot with
        | none => rfl
        | some g =>
          have h1s := i1 (by simp [h2s])
          simp [transitioning, h1s, h2s] at hnt
      have hnt' : transitioning (step .pressToggle s) = false := by
        simp [transitioning, step, changeThemeSetScheme, changeThemeCapture, h2]
      simp [phase, hnt, hnt']
    | listenerFire =>
      have hpend : s.pendingListener = true := hen
      have h2 : s.secondSnapshot = none := i2 hpend
      have h1 : s.firstSnapshot.isSome = true := i3 hpend
      have hs : transitioning s = false := by simp [transitioning, h2]
      have hs' : transitioning (step .listenerFire s) = true := by
        simp [transitioning, step, listenerFireStep, h1]
      exact Or.inl ⟨by simp [phase, hs], by simp [phase, hs'], rfl⟩
    | animComplete =>
      have hanim : s.anim.isSome = true := hen
      have h2 : s.secondSnapshot.isSome = true := i4 hanim
      have h1 : s.firstSnapshot.isSome = true := i1 h2
      have hs : transitioning s = true := by simp [transitioning, h1, h2]
      have hs' : transitioning (step .animComplete s) = false := by
        simp [transitioning, step, animCompleteStep]
      exact Or.inr ⟨by simp [phase, hs], by simp [phase, hs'], rfl⟩
  · intro s
    simp [phase, transitioning, step, animCompleteStep]

/-- Witness for C5: from the reachable state right after a toggle, the
appearance-change step is the phase change from idle to transitioning. -/
theorem c5_phase_machine_witness :
    (phase (step .pressToggle (initState none)) = .idle ∧
      phase (step .listenerFire (step .pressToggle (initState none))) =
        .transitioning ∧
      Ev.listenerFire = Ev.listenerFire) ∨
    (phase (step .pressToggle (initState none)) = .transitioning ∧
      phase (step .listenerFire (step .pressToggle (initState none))) = .idle ∧
      Ev.listenerFire = Ev.animComplete) :=
  c5_phase_machine.2.2.1 (step .pressToggle (initState none)) .listenerFire
    (Reachable.step .pressToggle (Reachable.init none) (by decide))
    (by decide) (by decide)

/-- C10: with the first snapshot non-null and the second still null, the
screen renders the first snapshot as a full-height static canvas over the
re-themed view; right after a toggle from an idle state, that canvas shows
the pre-change scheme while the view below carries the changed scheme, so
the user sees the frozen pre-change frame instead of an instant flip. -/
theorem c10_snapshot_overlay :
    (∀ s f, s.firstSnapshot = some f → s.secondSnapshot = none →
        render s = .snapshotOverlay f ⟨s.scheme⟩) ∧
    (∀ s, s.firstSnapshot = none → s.secondSnapshot = none →
        render (step .pressToggle s) =
          .snapshotOverlay ⟨s.scheme⟩ ⟨some (nextScheme s.scheme)⟩) := by
  constructor
  · intro s f h1 h2
    simp [render, h1, h2]
  · intro s h1 h2
    simp [render, step, changeThemeSetScheme, changeThemeCapture, capture, h2]

/-- Witness for C10: the toggle from the idle null-scheme state renders the
captured frame over the re-themed view. -/
theorem c10_snapshot_overlay_witness :
    render (step .pressToggle (initState none)) =
      .snapshotOverlay ⟨none⟩ ⟨some (nextScheme none)⟩ :=
  c10_snapshot_overlay.2 (initState none) rfl rfl

/-- C6: the fragment shader samples exactly the two snapshot textures
(image1 through getFromColor as the from-colour, image2 through getToColor as
the to-colour) and blends them by the wipe mask m via
mix(getFromColor(...), getToColor(...), m), where m is computed from the
pixel position, the fixed direction and the progress uniform; at progress 0
the result is the from-colour and at progress 1 the to-colour. -/
theorem c6_wipe_shader :
    (∀ (image1 image2 : Vec2 → Color) (progress : ℝ) (resolution xy : Vec2),
        shaderMain image1 image2 progress resolution xy =
          mixC
            (getFromColor image1 resolution
              ⟨(xy.x / resolution.x - 0.5) *
                  (1 - dwMask progress ⟨xy.x / resolution.x, xy.y / resolution.y⟩) +
                  0.5,
                (xy.y / resolution.y - 0.5) *
                  (1 - dwMask progress ⟨xy.x / resolution.x, xy.y / resolution.y⟩) +
                  0.5⟩)
            (getToColor image2 resolution
              ⟨(xy.x / resolution.x - 0.5) *
                  dwMask progress ⟨xy.x / resolution.x, xy.y / resolution.y⟩ + 0.5,
                (xy.y / resolution.y - 0.5) *
                  dwMask progress ⟨xy.x / resolution.x, xy.y / resolution.y⟩ + 0.5⟩)
            (dwMask progress ⟨xy.x / resolution.x, xy.y / resolution.y⟩)) ∧
    (∀ (getFrom getTo : Vec2 → Color) (uv : Vec2),
        0 ≤ uv.x → uv.x ≤ 1 → 0 ≤ uv.y → uv.y ≤ 1 →
        directionalwrapT getFrom getTo 0 uv = getFrom uv ∧
        directionalwrapT getFrom getTo 1 uv = getTo uv) := by
  constructor
  · intro image1 image2 progress resolution xy
    rfl
  · intro getFrom getTo uv hx0 hx1 hy0 hy1
    exact ⟨directionalwrapT_zero getFrom getTo uv hx1 hy0,
      directionalwrapT_one getFrom getTo uv hx0 hy1⟩

/-- Witness for C6: at progress 0 at the screen centre the shader returns
the first texture's colour. -/
theorem c6_wipe_shader_witness :
    directionalwrapT (fun _ => ⟨1, 0, 0, 1⟩) (fun _ => ⟨0, 1, 0, 1⟩) 0
        ⟨1 / 2, 1 / 2⟩ = (⟨1, 0, 0, 1⟩ : Color) :=
  (c6_wipe_shader.2 (fun _ => ⟨1, 0, 0, 1⟩) (fun _ => ⟨0, 1, 0, 1⟩) ⟨1 / 2, 1 / 2⟩
    (show (0 : ℝ) ≤ 1 / 2 by norm_num) (show (1 / 2 : ℝ) ≤ 1 by norm_num)
    (show (0 : ℝ) ≤ 1 / 2 by norm_num) (show (1 / 2 : ℝ) ≤ 1 by norm_num)).1
